import Mathlib

/-!
Verification of the session-persistence and connection-resilience core of
`mcp_feedback_enhanced` (file `connection_manager.py`), via a shallow
embedding.  Wall-clock readings (`time.time()`), the 128 random bits drawn
by `uuid.uuid4()`, and the outcome of each `_test_connection()` probe are
nondeterministic inputs of the Python code; here they are passed as explicit
parameters (`now : Nat`, `r : Nat`, `probe : Nat → Bool`).  The filesystem
session store (one JSON file per session id) is embedded as an association
list from session id to record; a successful `json.dump` overwrite is
`storeSave`, a successful read is `storeLookup`.  The asyncio heartbeat
task is embedded as a small-step machine (`hb_step`) whose suspension
points are exactly the suspension points of `heartbeat_loop`.
-/

/-- The session record built by `create_persistent_session` and stored one
per file.  Timestamps are modelled as `Nat`. -/
structure SessionRecord where
  session_id : String
  project_directory : String
  summary : String
  created_at : Nat
  last_heartbeat : Nat
  status : String
  feedback_result : Option String
  images : List String
  command_logs : List String
deriving Repr, DecidableEq

/-- The on-disk session store: one record per session id. -/
abbrev SessionStore := List (String × SessionRecord)

/-- Reading the session file for `k` (`open(...); json.load`). -/
def storeLookup : SessionStore → String → Option SessionRecord
  | [], _ => none
  | p :: ps, k => if p.1 = k then some p.2 else storeLookup ps k

/-- Overwriting the session file for `r.session_id` (`open(..., 'w'); json.dump`). -/
def storeSave : SessionStore → SessionRecord → SessionStore
  | [], r => [(r.session_id, r)]
  | p :: ps, r => if p.1 = r.session_id then (p.1, r) :: ps else p :: storeSave ps r

/-- Control position of the `heartbeat_loop` coroutine: at the `while`
test, suspended in `asyncio.sleep`, or returned. -/
inductive HBPos
  | loopHead
  | sleeping
  | done
deriving Repr, DecidableEq

/-- State of a `ConnectionManager` instance together with the session store
and the heartbeat coroutine.  `heartbeat_task` records whether
`self.heartbeat_task` is non-`None`, `cancelled` whether `.cancel()` has
been requested on it, and `ticks` counts the `_send_heartbeat` invocations
made by the heartbeat loop (an instrumentation counter). -/
structure ConnectionManager where
  is_persistent_mode : Bool
  heartbeat_interval : Nat
  reconnect_delay : Nat
  max_reconnect_attempts : Nat
  current_session : Option SessionRecord
  heartbeat_task : Bool
  is_running : Bool
  cancelled : Bool
  hb_pos : HBPos
  ticks : Nat
  store : SessionStore
deriving Repr, DecidableEq

/-- `ConnectionManager.__init__` (the store starts as whatever files already
exist in the cache directory). -/
def initManager (st : SessionStore) : ConnectionManager where
  is_persistent_mode := false
  heartbeat_interval := 30
  reconnect_delay := 5
  max_reconnect_attempts := 10
  current_session := none
  heartbeat_task := false
  is_running := false
  cancelled := false
  hb_pos := .done
  ticks := 0
  store := st

/-- `enable_persistent_mode` (signal-handler installation has no effect on
the embedded state). -/
def enable_persistent_mode (m : ConnectionManager) : ConnectionManager :=
  { m with is_persistent_mode := true }

/-- `_save_session_state`: persist the current session, if any. -/
def save_session_state (m : ConnectionManager) : ConnectionManager :=
  match m.current_session with
  | none => m
  | some s => { m with store := storeSave m.store s }

/-- `_send_heartbeat`: refresh the current session's timestamp and persist it. -/
def send_heartbeat (now : Nat) (m : ConnectionManager) : ConnectionManager :=
  match m.current_session with
  | none => m
  | some s =>
      save_session_state { m with current_session := some { s with last_heartbeat := now } }

/-- `start_heartbeat`: no-op unless persistent mode; otherwise sets
`is_running` and spawns the heartbeat loop coroutine. -/
def start_heartbeat (m : ConnectionManager) : ConnectionManager :=
  if m.is_persistent_mode = false then m
  else { m with is_running := true, heartbeat_task := true, cancelled := false, hb_pos := .loopHead }

/-- One scheduler step of `heartbeat_loop`.  At the loop head the `while
self.is_running` test runs; waking from `asyncio.sleep` either raises
`CancelledError` (caught, `break`) when cancellation was requested, or
re-checks `self.is_running` and only then performs `_send_heartbeat`
(atomic with respect to the loop, as `_save_session_state` has no inner
suspension point). -/
def hb_step (now : Nat) (m : ConnectionManager) : ConnectionManager :=
  match m.hb_pos with
  | .loopHead =>
      if m.is_running then { m with hb_pos := .sleeping } else { m with hb_pos := .done }
  | .sleeping =>
      if m.cancelled then { m with hb_pos := .done }
      else if m.is_running then
        let m1 := send_heartbeat now m
        { m1 with hb_pos := .loopHead, ticks := m1.ticks + 1 }
      else { m with hb_pos := .loopHead }
  | .done => m

/-- A sequence of scheduler steps of the heartbeat loop, one per wall-clock
reading. -/
def hb_run : List Nat → ConnectionManager → ConnectionManager
  | [], m => m
  | t :: ts, m => hb_run ts (hb_step t m)

/-- Hex digit characters as produced by Python `'%032x' % int`. -/
def hexChar (n : Nat) : Char :=
  if n < 10 then Char.ofNat (48 + n) else Char.ofNat (87 + n)

/-- The low `w` hex digits of `n`, most significant first. -/
def hexDigits : Nat → Nat → List Char
  | _, 0 => []
  | n, w + 1 => hexDigits (n / 16) w ++ [hexChar (n % 16)]

/-- The 128-bit integer of `uuid.uuid4()` built from 128 random bits `r`:
the RFC 4122 variant and the version number 4 are forced onto the random
value exactly as in CPython `uuid.UUID.__init__` (`int &= ~(0xc000 << 48);
int |= 0x8000 << 48; int &= ~(0xf000 << 64); int |= 4 << 76`; the
complement is taken within 128 bits). -/
def uuid4_int (r : Nat) : Nat :=
  let i0 := r % 2 ^ 128
  let i1 := i0 &&& ((2 ^ 128 - 1) ^^^ (0xc000 <<< 48))
  let i2 := i1 ||| (0x8000 <<< 48)
  let i3 := i2 &&& ((2 ^ 128 - 1) ^^^ (0xf000 <<< 64))
  i3 ||| (4 <<< 76)

/-- `str(uuid.uuid4())`: the 32 hex digits grouped 8-4-4-4-12. -/
def uuid4_str (r : Nat) : String :=
  let h := hexDigits (uuid4_int r) 32
  ⟨h.take 8 ++ '-' :: ((h.drop 8).take 4 ++ '-' :: ((h.drop 12).take 4
    ++ '-' :: ((h.drop 16).take 4 ++ '-' :: h.drop 20)))⟩

/-- Lower-case hex digit character. -/
def isHexChar (c : Char) : Bool :=
  (48 ≤ c.toNat && c.toNat ≤ 57) || (97 ≤ c.toNat && c.toNat ≤ 102)

/-- The canonical textual shape of a version-4 UUID: 36 characters grouped
8-4-4-4-12 by dashes, lower-case hex digits, version digit `4`, variant
digit among `8 9 a b`. -/
def isUuidV4 (s : String) : Bool :=
  let cs := s.data
  cs.length == 36
  && (cs.take 8).all isHexChar
  && (cs.drop 8).take 1 == ['-']
  && ((cs.drop 9).take 4).all isHexChar
  && (cs.drop 13).take 1 == ['-']
  && (cs.drop 14).take 1 == ['4']
  && ((cs.drop 15).take 3).all isHexChar
  && (cs.drop 18).take 1 == ['-']
  && ((cs.drop 19).take 1 == ['8'] || (cs.drop 19).take 1 == ['9']
      || (cs.drop 19).take 1 == ['a'] || (cs.drop 19).take 1 == ['b'])
  && ((cs.drop 20).take 3).all isHexChar
  && (cs.drop 23).take 1 == ['-']
  && (cs.drop 24).all isHexChar

/-- `create_persistent_session`: both `time.time()` readings of one
synchronous call are the single clock value `now`; `r` is the randomness
consumed by `uuid.uuid4()`.  Returns the new id and the updated state. -/
def create_persistent_session (r now : Nat) (project_directory summary : String)
    (m : ConnectionManager) : String × ConnectionManager :=
  let session_id := uuid4_str r
  let session_data : SessionRecord :=
    { session_id := session_id
      project_directory := project_directory
      summary := summary
      created_at := now
      last_heartbeat := now
      status := "active"
      feedback_result := none
      images := []
      command_logs := [] }
  (session_id, save_session_state { m with current_session := some session_data })

/-- `restore_session`: load the file for `session_id`; on success it becomes
the current session and is returned, a missing file yields `none`. -/
def restore_session (m : ConnectionManager) (session_id : String) :
    ConnectionManager × Option SessionRecord :=
  match storeLookup m.store session_id with
  | some s => ({ m with current_session := some s }, some s)
  | none => (m, none)

/-- `update_session_feedback`: if a session is current, set its feedback,
images and status and persist; otherwise do nothing. -/
def update_session_feedback (m : ConnectionManager) (feedback : String)
    (images : List String) : ConnectionManager :=
  match m.current_session with
  | none => m
  | some s =>
      let s1 := { s with feedback_result := some feedback, images := images,
                         status := "completed" }
      save_session_state { m with current_session := some s1 }

/-- Outcome of the reconnection loop, instrumented with the number of
`_test_connection` probes performed and the total time spent in
`asyncio.sleep(self.reconnect_delay)`. -/
structure ReconnectResult where
  success : Bool
  probes : Nat
  slept : Nat
deriving Repr, DecidableEq

/-- The `for attempt in range(...)` loop of `handle_connection_loss`:
each iteration sleeps `delay` and then probes; the loop returns on the
first successful probe. -/
def reconnect_attempts (probe : Nat → Bool) (delay : Nat) : Nat → Nat → ReconnectResult
  | _, 0 => ⟨false, 0, 0⟩
  | k, n + 1 =>
      if probe k then ⟨true, 1, delay⟩
      else
        let res := reconnect_attempts probe delay (k + 1) n
        ⟨res.success, res.probes + 1, res.slept + delay⟩

/-- `handle_connection_loss`: immediately `False` unless persistent mode,
otherwise up to `max_reconnect_attempts` sleep-then-probe iterations. -/
def handle_connection_loss (m : ConnectionManager) (probe : Nat → Bool) : ReconnectResult :=
  if m.is_persistent_mode = false then ⟨false, 0, 0⟩
  else reconnect_attempts probe m.reconnect_delay 0 m.max_reconnect_attempts

/-- `stop`: clear `is_running`, request cancellation of the heartbeat task
if one exists, and persist the current session one final time (on a fresh
event loop). -/
def stop (m : ConnectionManager) : ConnectionManager :=
  let m1 := { m with is_running := false }
  let m2 := if m1.heartbeat_task then { m1 with cancelled := true } else m1
  match m2.current_session with
  | some _ => save_session_state m2
  | none => m2

/-- `get_active_sessions`: every stored record whose last heartbeat is less
than 24 hours (86400 seconds) old; the age test is real-valued subtraction
in Python, embedded as `Int` subtraction. -/
def get_active_sessions (now : Nat) (m : ConnectionManager) : List SessionRecord :=
  (m.store.filter
    (fun p => decide ((now : Int) - (p.2.last_heartbeat : Int) < 86400))).map
    (fun p => p.2)

/-- ASCII lowercasing of one character, as `str.lower()` acts on the
ASCII range (the range that can matter for matching the ASCII patterns
`"connection"` and `"timeout"`). -/
def lowerChar (c : Char) : Char :=
  if 65 ≤ c.toNat && c.toNat ≤ 90 then Char.ofNat (c.toNat + 32) else c

/-- Whether `pat` is a leading segment of the list. -/
def startsWith : List Char → List Char → Bool
  | _, [] => true
  | [], _ :: _ => false
  | a :: l, b :: p => a == b && startsWith l p

/-- Whether `pat` occurs contiguously in the list (Python `pat in s`). -/
def hasSub (pat : List Char) : List Char → Bool
  | [] => startsWith [] pat
  | a :: t => startsWith (a :: t) pat || hasSub pat t

/-- The connectivity classification of `with_persistent_connection`:
`"connection" in str(e).lower() or "timeout" in str(e).lower()`. -/
def is_connection_issue (msg : String) : Bool :=
  hasSub "connection".data (msg.data.map lowerChar)
  || hasSub "timeout".data (msg.data.map lowerChar)

/-- Result of one call through the `with_persistent_connection` wrapper,
instrumented with how often `handle_connection_loss` was invoked and
whether the wrapped operation was re-invoked. -/
structure WrapperOutcome (α : Type) where
  result : Except String α
  reconnect_calls : Nat
  retried : Bool
  mgr : ConnectionManager
deriving Repr

/-- The `with_persistent_connection` decorator applied to one call:
`first` is the outcome of the initial invocation of the wrapped operation
and `retryOutcome` the outcome of its re-invocation, should one happen.
An exception whose message is connectivity- or timeout-classified triggers
exactly one `handle_connection_loss`; on reconnection success the
operation is retried once and that outcome returned (a `raise` from the
retry propagates from within the `except` block), otherwise the original
exception is re-raised. -/
def with_persistent_connection {α : Type} (m : ConnectionManager) (probe : Nat → Bool)
    (first retryOutcome : Except String α) : WrapperOutcome α :=
  let m0 := if m.is_persistent_mode && !m.heartbeat_task then start_heartbeat m else m
  match first with
  | .ok v => ⟨.ok v, 0, false, m0⟩
  | .error e =>
      if is_connection_issue e then
        if (handle_connection_loss m0 probe).success then ⟨retryOutcome, 1, true, m0⟩
        else ⟨.error e, 1, false, m0⟩
      else ⟨.error e, 0, false, m0⟩

/-- The spec's record invariant: `status = "completed"` implies a non-null
`feedback_result`. -/
def recOK (r : SessionRecord) : Bool :=
  r.status != "completed" || r.feedback_result.isSome

/-- The record invariant holding of the in-memory current session and of
every record in the store. -/
def mgrOK (m : ConnectionManager) : Bool :=
  m.current_session.all recOK && m.store.all (fun p => recOK p.2)

/-! ### Store lemmas -/

theorem storeLookup_storeSave_self (st : SessionStore) (r : SessionRecord) :
    storeLookup (storeSave st r) r.session_id = some r := by
  induction st with
  | nil => simp [storeSave, storeLookup]
  | cons p ps ih =>
      by_cases h : p.1 = r.session_id
      · simp [storeSave, storeLookup, h]
      · simp [storeSave, storeLookup, h, ih]

theorem storeSave_storeSave_self (st : SessionStore) (r : SessionRecord) :
    storeSave (storeSave st r) r = storeSave st r := by
  induction st with
  | nil => simp [storeSave]
  | cons p ps ih =>
      by_cases h : p.1 = r.session_id
      · simp [storeSave, h]
      · simp [storeSave, h, ih]

theorem mem_of_mem_storeSave {st : SessionStore} {r : SessionRecord}
    {p : String × SessionRecord} (h : p ∈ storeSave st r) :
    p = (r.session_id, r) ∨ p ∈ st := by
  induction st with
  | nil => simpa [storeSave] using h
  | cons q qs ih =>
      by_cases hq : q.1 = r.session_id
      · simp only [storeSave, if_pos hq, List.mem_cons] at h
        rcases h with h | h
        · left; rw [h, hq]
        · right; simp [h]
      · simp only [storeSave, if_neg hq, List.mem_cons] at h
        rcases h with h | h
        · right; simp [h]
        · rcases ih h with h | h
          · left; exact h
          · right; simp [h]

theorem mem_storeSave_self (st : SessionStore) (r : SessionRecord) :
    (r.session_id, r) ∈ storeSave st r := by
  induction st with
  | nil => simp [storeSave]
  | cons p ps ih =>
      by_cases h : p.1 = r.session_id
      · simp [storeSave, h]
      · simp [storeSave, h, ih]

theorem mem_of_storeLookup {st : SessionStore} {k : String} {v : SessionRecord}
    (h : storeLookup st k = some v) : (k, v) ∈ st := by
  induction st with
  | nil => simp [storeLookup] at h
  | cons p ps ih =>
      obtain ⟨p1, p2⟩ := p
      by_cases hp : p1 = k
      · simp [storeLookup, hp] at h
        simp [hp, h]
      · simp [storeLookup, hp] at h
        exact List.mem_cons_of_mem _ (ih h)

/-! ### C10, C4, C7, C8 -/

/-- C10: with no current session, `update_session_feedback` returns without
raising, leaves the whole manager state (including the store) unchanged,
and silently discards the supplied feedback. -/
theorem update_session_feedback_no_session (m : ConnectionManager) (feedback : String)
    (images : List String) (h : m.current_session = none) :
    update_session_feedback m feedback images = m := by
  unfold update_session_feedback
  rw [h]

/-- A sample session record used to instantiate witnesses. -/
def recW : SessionRecord :=
  { session_id := "sid-1", project_directory := "/tmp/proj", summary := "test"
    created_at := 100, last_heartbeat := 100, status := "active"
    feedback_result := none, images := [], command_logs := [] }

/-- A manager whose current session is `recW`. -/
def mgrW : ConnectionManager := { initManager [] with current_session := some recW }

theorem update_session_feedback_no_session_witness :
    update_session_feedback (initManager []) "looks good" ["img"] = initManager [] :=
  update_session_feedback_no_session (initManager []) "looks good" ["img"] rfl

/-- C4: with a current session, `update_session_feedback` sets
`feedback_result`, `images` and `status = "completed"` on it, and the
updated record is persisted in the store before the call returns. -/
theorem update_session_feedback_persists (m : ConnectionManager) (s : SessionRecord)
    (feedback : String) (images : List String) (h : m.current_session = some s) :
    (update_session_feedback m feedback images).current_session =
      some { s with feedback_result := some feedback, images := images, status := "completed" }
    ∧ storeLookup (update_session_feedback m feedback images).store s.session_id =
      some { s with feedback_result := some feedback, images := images, status := "completed" } := by
  unfold update_session_feedback
  rw [h]
  refine ⟨rfl, ?_⟩
  exact storeLookup_storeSave_self m.store
    { s with feedback_result := some feedback, images := images, status := "completed" }

theorem update_session_feedback_persists_witness :
    (update_session_feedback mgrW "looks good" []).current_session =
      some { recW with feedback_result := some "looks good", images := [], status := "completed" }
    ∧ storeLookup (update_session_feedback mgrW "looks good" []).store recW.session_id =
      some { recW with feedback_result := some "looks good", images := [], status := "completed" } :=
  update_session_feedback_persists mgrW recW "looks good" [] rfl

/-- C7: saving a record and then restoring by its id yields a record
field-for-field equal to the saved one, and it becomes the current session. -/
theorem save_then_restore_roundtrip (m : ConnectionManager) (r : SessionRecord) :
    (restore_session (save_session_state { m with current_session := some r }) r.session_id).2
      = some r
    ∧ (restore_session (save_session_state { m with current_session := some r })
        r.session_id).1.current_session = some r := by
  unfold restore_session save_session_state
  simp only []
  rw [storeLookup_storeSave_self m.store r]
  exact ⟨rfl, rfl⟩

/-- C8: `get_active_sessions` returns exactly the stored records whose age
`now - last_heartbeat` is below 86400 seconds, and a session created via
`create_persistent_session` is included by an immediately following call. -/
theorem get_active_sessions_spec (now r2 now2 : Nat) (m : ConnectionManager)
    (rec : SessionRecord) (proj summ : String) :
    (rec ∈ get_active_sessions now m ↔
      (∃ k, (k, rec) ∈ m.store) ∧ (now : Int) - (rec.last_heartbeat : Int) < 86400)
    ∧ (∃ s ∈ get_active_sessions now2 (create_persistent_session r2 now2 proj summ m).2,
        s.session_id = (create_persistent_session r2 now2 proj summ m).1) := by
  constructor
  · unfold get_active_sessions
    simp only [List.mem_map, List.mem_filter, decide_eq_true_eq]
    constructor
    · rintro ⟨⟨k, v⟩, ⟨hmem, hlt⟩, rfl⟩
      exact ⟨⟨k, hmem⟩, hlt⟩
    · rintro ⟨⟨k, hmem⟩, hlt⟩
      exact ⟨(k, rec), ⟨hmem, hlt⟩, rfl⟩
  · unfold create_persistent_session get_active_sessions save_session_state
    simp only [List.mem_map, List.mem_filter, decide_eq_true_eq]
    refine ⟨_, ⟨⟨_, ⟨mem_storeSave_self m.store _, ?_⟩, rfl⟩, rfl⟩⟩
    simp

/-! ### C2: reconnection policy -/

theorem reconnect_attempts_probes_le (probe : Nat → Bool) (delay k n : Nat) :
    (reconnect_attempts probe delay k n).probes ≤ n := by
  induction n generalizing k with
  | zero => simp [reconnect_attempts]
  | succ n ih =>
      unfold reconnect_attempts
      by_cases h : probe k
      · simp [h]
      · simp only [h, Bool.false_eq_true, if_false]
        have := ih (k + 1)
        omega

theorem reconnect_attempts_all_fail (probe : Nat → Bool) (delay k n : Nat)
    (h : ∀ i, i < n → probe (k + i) = false) :
    reconnect_attempts probe delay k n = ⟨false, n, n * delay⟩ := by
  induction n generalizing k with
  | zero => simp [reconnect_attempts]
  | succ n ih =>
      have hk : probe k = false := by simpa using h 0 (by omega)
      have hrec : reconnect_attempts probe delay (k + 1) n = ⟨false, n, n * delay⟩ := by
        refine ih (k + 1) (fun i hi => ?_)
        have h2 := h (i + 1) (by omega)
        have harg : k + (i + 1) = k + 1 + i := by omega
        rw [harg] at h2
        exact h2
      unfold reconnect_attempts
      rw [if_neg (by simp [hk]), hrec]
      have : n * delay + delay = (n + 1) * delay := by ring
      simp [this]

theorem reconnect_attempts_first_success (probe : Nat → Bool) (delay : Nat) (j : Nat) :
    ∀ k n, j < n → probe (k + j) = true → (∀ i, i < j → probe (k + i) = false) →
    reconnect_attempts probe delay k n = ⟨true, j + 1, (j + 1) * delay⟩ := by
  induction j with
  | zero =>
      intro k n hn hp _
      obtain ⟨n', rfl⟩ : ∃ n', n = n' + 1 := ⟨n - 1, by omega⟩
      have hk : probe k = true := by simpa using hp
      unfold reconnect_attempts
      simp [hk]
  | succ j ih =>
      intro k n hn hp hfail
      obtain ⟨n', rfl⟩ : ∃ n', n = n' + 1 := ⟨n - 1, by omega⟩
      have hk : probe k = false := by simpa using hfail 0 (by omega)
      have hp' : probe (k + 1 + j) = true := by
        have harg : k + (j + 1) = k + 1 + j := by omega
        rw [harg] at hp
        exact hp
      have hfail' : ∀ i, i < j → probe (k + 1 + i) = false := by
        intro i hi
        have h2 := hfail (i + 1) (by omega)
        have harg : k + (i + 1) = k + 1 + i := by omega
        rw [harg] at h2
        exact h2
      unfold reconnect_attempts
      rw [if_neg (by simp [hk]), ih (k + 1) n' (by omega) hp' hfail']
      have : (j + 1) * delay + delay = (j + 1 + 1) * delay := by ring
      simp [this]

/-- C2: `handle_connection_loss` returns `false` at once, with no probe
and no sleep, when persistent mode is off; otherwise it performs at most
`max_reconnect_attempts` probes, each preceded by one `reconnect_delay`
sleep, succeeds on the first successful probe (after `j + 1` probes and
`(j + 1)` sleeps when the first success is probe `j`), and when every
probe fails it returns `false` after exactly `max_reconnect_attempts`
probes and `max_reconnect_attempts * reconnect_delay` total sleep. -/
theorem handle_connection_loss_spec (m : ConnectionManager) (probe : Nat → Bool) :
    (m.is_persistent_mode = false → handle_connection_loss m probe = ⟨false, 0, 0⟩)
    ∧ (handle_connection_loss m probe).probes ≤ m.max_reconnect_attempts
    ∧ (m.is_persistent_mode = true →
        ((∀ i, i < m.max_reconnect_attempts → probe i = false) →
          handle_connection_loss m probe =
            ⟨false, m.max_reconnect_attempts, m.max_reconnect_attempts * m.reconnect_delay⟩)
        ∧ (∀ j, j < m.max_reconnect_attempts → probe j = true →
            (∀ i, i < j → probe i = false) →
            handle_connection_loss m probe = ⟨true, j + 1, (j + 1) * m.reconnect_delay⟩)) := by
  refine ⟨fun h => by simp [handle_connection_loss, h], ?_, fun h => ⟨fun hfail => ?_, ?_⟩⟩
  · unfold handle_connection_loss
    split
    · simp
    · exact reconnect_attempts_probes_le probe m.reconnect_delay 0 m.max_reconnect_attempts
  · rw [handle_connection_loss, if_neg (by simp [h])]
    exact reconnect_attempts_all_fail probe m.reconnect_delay 0 m.max_reconnect_attempts
      (fun i hi => by simpa using hfail i hi)
  · intro j hj hpj hfail
    rw [handle_connection_loss, if_neg (by simp [h])]
    exact reconnect_attempts_first_success probe m.reconnect_delay j 0 m.max_reconnect_attempts
      hj (by simpa using hpj) (fun i hi => by simpa using hfail i hi)

/-- A manager in persistent mode with `max_reconnect_attempts = 3`. -/
def mgr3 : ConnectionManager :=
  { initManager [] with is_persistent_mode := true, max_reconnect_attempts := 3 }

theorem handle_connection_loss_spec_witness :
    handle_connection_loss mgr3 (fun _ => false) = ⟨false, 3, 15⟩
    ∧ 3 * mgr3.reconnect_delay ≤ 15 := by
  have h := (handle_connection_loss_spec mgr3 (fun _ => false)).2.2 rfl
  refine ⟨?_, by decide⟩
  rw [h.1 (fun i _ => rfl)]
  rfl

/-! ### C1: retry wrapper -/

theorem start_heartbeat_keeps_reconnect_fields (m : ConnectionManager) :
    (start_heartbeat m).is_persistent_mode = m.is_persistent_mode
    ∧ (start_heartbeat m).reconnect_delay = m.reconnect_delay
    ∧ (start_heartbeat m).max_reconnect_attempts = m.max_reconnect_attempts := by
  unfold start_heartbeat
  split <;> exact ⟨rfl, rfl, rfl⟩

theorem handle_connection_loss_start_heartbeat (m : ConnectionManager) (probe : Nat → Bool) :
    handle_connection_loss
      (if m.is_persistent_mode && !m.heartbeat_task then start_heartbeat m else m) probe
    = handle_connection_loss m probe := by
  split
  · unfold handle_connection_loss
    rw [(start_heartbeat_keeps_reconnect_fields m).1,
      (start_heartbeat_keeps_reconnect_fields m).2.1,
      (start_heartbeat_keeps_reconnect_fields m).2.2]
  · rfl

/-- C1: through `with_persistent_connection`, a successful operation's
value is returned with no reconnection; an error whose message is
connectivity- or timeout-classified invokes `handle_connection_loss`
exactly once, and the operation is retried exactly once with the retry's
outcome returned when reconnection succeeds, while the original error
propagates unchanged when reconnection fails; an unclassified error
propagates unchanged with no reconnection attempt. -/
theorem with_persistent_connection_spec {α : Type} (m : ConnectionManager)
    (probe : Nat → Bool) (e : String) (v : α) (retryOutcome : Except String α) :
    (with_persistent_connection m probe (.ok v) retryOutcome).result = .ok v
    ∧ (with_persistent_connection m probe (.ok v) retryOutcome).reconnect_calls = 0
    ∧ (is_connection_issue e = true →
        (with_persistent_connection m probe (.error e) retryOutcome).reconnect_calls = 1
        ∧ ((handle_connection_loss m probe).success = true →
            (with_persistent_connection m probe (.error e) retryOutcome).result = retryOutcome
            ∧ (with_persistent_connection m probe (.error e) retryOutcome).retried = true)
        ∧ ((handle_connection_loss m probe).success = false →
            (with_persistent_connection m probe (.error e) retryOutcome).result = .error e
            ∧ (with_persistent_connection m probe (.error e) retryOutcome).retried = false))
    ∧ (is_connection_issue e = false →
        (with_persistent_connection m probe (.error e) retryOutcome).result = .error e
        ∧ (with_persistent_connection m probe (.error e) retryOutcome).reconnect_calls = 0) := by
  have hinv := handle_connection_loss_start_heartbeat m probe
  refine ⟨rfl, rfl, fun hc => ?_, fun hc => ?_⟩
  · by_cases hs : (handle_connection_loss m probe).success = true
    · refine ⟨?_, fun _ => ⟨?_, ?_⟩, fun hf => absurd hs (by simp [hf])⟩
      all_goals simp only [with_persistent_connection]
      all_goals rw [hinv, hc]
      all_goals simp [hs]
    · have hs' : (handle_connection_loss m probe).success = false := by
        cases h : (handle_connection_loss m probe).success
        · rfl
        · exact absurd h hs
      refine ⟨?_, fun ht => absurd ht hs, fun _ => ⟨?_, ?_⟩⟩
      all_goals simp only [with_persistent_connection]
      all_goals rw [hinv, hc]
      all_goals simp [hs']
  · constructor
    all_goals simp only [with_persistent_connection]
    all_goals rw [hc]
    all_goals simp

/-- A manager in persistent mode (for the wrapper witness). -/
def mgrP : ConnectionManager := { initManager [] with is_persistent_mode := true }

theorem with_persistent_connection_spec_witness :
    (with_persistent_connection mgrP (fun _ => true) (.error "Connection lost")
      (.ok (7 : Nat))).result = .ok 7
    ∧ (with_persistent_connection mgrP (fun _ => true) (.error "Connection lost")
      (.ok (7 : Nat))).reconnect_calls = 1
    ∧ (with_persistent_connection mgrP (fun _ => true) (.error "value error")
      (.ok (7 : Nat))).result = .error "value error" := by
  have h := with_persistent_connection_spec mgrP (fun _ => true) "Connection lost"
    (0 : Nat) (.ok (7 : Nat))
  have h2 := with_persistent_connection_spec mgrP (fun _ => true) "value error"
    (0 : Nat) (.ok (7 : Nat))
  exact ⟨((h.2.2.1 (by decide)).2.1 (by decide)).1, (h.2.2.1 (by decide)).1,
    (h2.2.2.2 (by decide)).1⟩

/-! ### C5: the completed-implies-feedback invariant -/

theorem mgrOK_save (m : ConnectionManager) (h : mgrOK m = true) :
    mgrOK (save_session_state m) = true := by
  rcases hc : m.current_session with _ | s
  · simpa [save_session_state, hc] using h
  · simp only [mgrOK, hc, Option.all_some, Bool.and_eq_true, List.all_eq_true] at h
    obtain ⟨hcur, hall⟩ := h
    simp only [save_session_state, hc, mgrOK, Option.all_some, Bool.and_eq_true,
      List.all_eq_true]
    refine ⟨by simpa [hc] using hcur, fun p hp => ?_⟩
    rcases mem_of_mem_storeSave hp with rfl | hp'
    · exact hcur
    · exact hall p hp'

theorem mgrOK_send_heartbeat (now : Nat) (m : ConnectionManager) (h : mgrOK m = true) :
    mgrOK (send_heartbeat now m) = true := by
  rcases hc : m.current_session with _ | s
  · simpa [send_heartbeat, hc] using h
  · simp only [send_heartbeat, hc]
    refine mgrOK_save _ ?_
    simp only [mgrOK, hc, Option.all_some, Bool.and_eq_true, List.all_eq_true] at h
    simp only [mgrOK, Option.all_some, Bool.and_eq_true, List.all_eq_true]
    exact ⟨by simpa [recOK] using h.1, h.2⟩

theorem mgrOK_update_session_feedback (m : ConnectionManager) (feedback : String)
    (images : List String) (h : mgrOK m = true) :
    mgrOK (update_session_feedback m feedback images) = true := by
  rcases hc : m.current_session with _ | s
  · simpa [update_session_feedback, hc] using h
  · simp only [update_session_feedback, hc]
    refine mgrOK_save _ ?_
    simp only [mgrOK, hc, Option.all_some, Bool.and_eq_true, List.all_eq_true] at h
    simp only [mgrOK, Option.all_some, Bool.and_eq_true, List.all_eq_true]
    exact ⟨by simp [recOK], h.2⟩

theorem mgrOK_restore_session (m : ConnectionManager) (sid : String)
    (h : mgrOK m = true) : mgrOK (restore_session m sid).1 = true := by
  rcases hl : storeLookup m.store sid with _ | s
  · simpa [restore_session, hl] using h
  · simp only [restore_session, hl]
    simp only [mgrOK, Option.all_some, Bool.and_eq_true, List.all_eq_true] at h ⊢
    refine ⟨?_, h.2⟩
    simpa using h.2 (sid, s) (mem_of_storeLookup hl)

theorem mgrOK_hb_step (now : Nat) (m : ConnectionManager) (h : mgrOK m = true) :
    mgrOK (hb_step now m) = true := by
  rcases hp : m.hb_pos with _ | _ | _ <;> simp only [hb_step, hp]
  · split_ifs <;> simpa [mgrOK] using h
  · split_ifs
    · simpa [mgrOK] using h
    · have h2 := mgrOK_send_heartbeat now m h
      simpa [mgrOK] using h2
    · simpa [mgrOK] using h
  · exact h

theorem mgrOK_create (r now : Nat) (proj summ : String) (m : ConnectionManager)
    (h : mgrOK m = true) :
    mgrOK (create_persistent_session r now proj summ m).2 = true := by
  simp only [create_persistent_session]
  refine mgrOK_save _ ?_
  simp only [mgrOK, Option.all_some, Bool.and_eq_true, List.all_eq_true] at h ⊢
  exact ⟨by simp [recOK], fun p hp => h.2 p hp⟩

theorem stop_eq (m : ConnectionManager) :
    stop m = save_session_state
      (if m.heartbeat_task then { m with is_running := false, cancelled := true }
       else { m with is_running := false }) := by
  simp only [stop, save_session_state]
  rcases hc : m.current_session with _ | s <;> split_ifs with ht <;> simp [hc]

theorem mgrOK_stop (m : ConnectionManager) (h : mgrOK m = true) :
    mgrOK (stop m) = true := by
  rw [stop_eq]
  split_ifs with ht <;> exact mgrOK_save _ (by simpa [mgrOK] using h)

/-- C5: the invariant "a record with `status = "completed"` has a non-null
`feedback_result`", holding of the in-memory current session and of every
record in the store, is preserved by session creation, by a heartbeat
scheduler step, by a feedback update (whose feedback argument is a
non-null string by type), by session restore, by a state save, and by
`stop`. -/
theorem completed_has_feedback_invariant (m : ConnectionManager) (r now now2 : Nat)
    (proj summ feedback sid : String) (images : List String) (h : mgrOK m = true) :
    mgrOK (create_persistent_session r now proj summ m).2 = true
    ∧ mgrOK (hb_step now2 m) = true
    ∧ mgrOK (update_session_feedback m feedback images) = true
    ∧ mgrOK (restore_session m sid).1 = true
    ∧ mgrOK (save_session_state m) = true
    ∧ mgrOK (stop m) = true :=
  ⟨mgrOK_create r now proj summ m h, mgrOK_hb_step now2 m h,
    mgrOK_update_session_feedback m feedback images h, mgrOK_restore_session m sid h,
    mgrOK_save m h, mgrOK_stop m h⟩

theorem completed_has_feedback_invariant_witness :
    mgrOK (create_persistent_session 0 1 "/tmp/proj" "sum" mgrW).2 = true
    ∧ mgrOK (hb_step 2 mgrW) = true
    ∧ mgrOK (update_session_feedback mgrW "ok" []) = true
    ∧ mgrOK (restore_session mgrW "sid-1").1 = true
    ∧ mgrOK (save_session_state mgrW) = true
    ∧ mgrOK (stop mgrW) = true :=
  completed_has_feedback_invariant mgrW 0 1 2 "/tmp/proj" "sum" "ok" "sid-1" []
    (by decide)

/-! ### C3: stop semantics -/

theorem hb_step_frozen (now : Nat) (m : ConnectionManager) (h : m.is_running = false) :
    (hb_step now m).ticks = m.ticks ∧ (hb_step now m).current_session = m.current_session
    ∧ (hb_step now m).store = m.store ∧ (hb_step now m).is_running = false := by
  rcases hp : m.hb_pos with _ | _ | _
  · simp only [hb_step, hp]
    split_ifs <;> simp_all
  · simp only [hb_step, hp]
    split_ifs <;> simp_all
  · simp only [hb_step, hp]
    simp_all

theorem hb_run_frozen (nows : List Nat) (m : ConnectionManager) (h : m.is_running = false) :
    (hb_run nows m).ticks = m.ticks ∧ (hb_run nows m).current_session = m.current_session
    ∧ (hb_run nows m).store = m.store ∧ (hb_run nows m).is_running = false := by
  induction nows generalizing m with
  | nil => exact ⟨rfl, rfl, rfl, h⟩
  | cons t ts ih =>
      obtain ⟨h1, h2, h3, h4⟩ := hb_step_frozen t m h
      obtain ⟨g1, g2, g3, g4⟩ := ih (hb_step t m) h4
      exact ⟨by rw [hb_run, g1, h1], by rw [hb_run, g2, h2], by rw [hb_run, g3, h3],
        by rw [hb_run]; exact g4⟩

theorem stop_is_running (m : ConnectionManager) : (stop m).is_running = false := by
  rw [stop_eq]
  split_ifs with ht <;> rcases hc : m.current_session with _ | s <;>
    simp [save_session_state, hc]

theorem stop_stop (m : ConnectionManager) : stop (stop m) = stop m := by
  rcases ht : m.heartbeat_task with _ | _ <;> rcases hc : m.current_session with _ | s <;>
    simp [stop, save_session_state, ht, hc, storeSave_storeSave_self]

/-- A manager with a live heartbeat coroutine suspended in its sleep. -/
def mgrRun : ConnectionManager :=
  { initManager [] with
      is_persistent_mode := true, is_running := true, heartbeat_task := true,
      hb_pos := .sleeping, current_session := some recW }

/-- C3 counterexample: `stop` only requests cancellation of the heartbeat
task (`task.cancel()`), it never awaits the task, so it can return while
the heartbeat coroutine is still suspended in `asyncio.sleep` — at
`mgrRun`, after `stop` returns, the coroutine has not terminated; the
claim that `stop` waits for the heartbeat task to fully terminate before
returning is therefore false. -/
theorem stop_not_await_counterexample :
    ¬ (∀ m : ConnectionManager, m.heartbeat_task = true → (stop m).hb_pos = HBPos.done) := by
  intro hP
  have h1 := hP mgrRun rfl
  have h2 : (stop mgrRun).hb_pos = HBPos.sleeping := by decide
  rw [h2] at h1
  exact HBPos.noConfusion h1

/-- C3 (amended): `stop` is idempotent — a second call returns the
identical state, and being a total function of the state it cannot raise;
after `stop` returns, no heartbeat scheduler step ever ticks again: over
any further scheduling the tick count, the current session (hence its
`last_heartbeat`) and the store are unchanged; before returning, `stop`
has synchronously persisted the current session to the store and has
requested cancellation of the heartbeat task (clearing `is_running`),
but it returns without waiting for the task to actually terminate. -/
theorem stop_spec (m : ConnectionManager) (srec : SessionRecord) (nows : List Nat)
    (h : m.current_session = some srec) :
    stop (stop m) = stop m
    ∧ (hb_run nows (stop m)).ticks = (stop m).ticks
    ∧ (hb_run nows (stop m)).current_session = (stop m).current_session
    ∧ (hb_run nows (stop m)).store = (stop m).store
    ∧ storeLookup (stop m).store srec.session_id = some srec
    ∧ (stop m).current_session = some srec
    ∧ (stop m).is_running = false
    ∧ (m.heartbeat_task = true → (stop m).cancelled = true) := by
  obtain ⟨f1, f2, f3, _⟩ := hb_run_frozen nows (stop m) (stop_is_running m)
  refine ⟨stop_stop m, f1, f2, f3, ?_, ?_, stop_is_running m, ?_⟩
  · rw [stop_eq]
    split_ifs with ht <;> simp [save_session_state, h, storeLookup_storeSave_self]
  · rw [stop_eq]
    split_ifs with ht <;> simp [save_session_state, h]
  · intro ht
    rw [stop_eq, if_pos ht]
    simp [save_session_state, h]

theorem stop_spec_witness :
    stop (stop mgrRun) = stop mgrRun
    ∧ (hb_run [5, 6, 7] (stop mgrRun)).ticks = (stop mgrRun).ticks
    ∧ (hb_run [5, 6, 7] (stop mgrRun)).current_session = (stop mgrRun).current_session
    ∧ (hb_run [5, 6, 7] (stop mgrRun)).store = (stop mgrRun).store
    ∧ storeLookup (stop mgrRun).store recW.session_id = some recW
    ∧ (stop mgrRun).current_session = some recW
    ∧ (stop mgrRun).is_running = false
    ∧ (mgrRun.heartbeat_task = true → (stop mgrRun).cancelled = true) :=
  stop_spec mgrRun recW [5, 6, 7] rfl

/-! ### C9: last_heartbeat discipline -/

/-- C9 counterexample: `update_session_feedback` does not touch
`last_heartbeat` — at `mgrW` (whose session's `last_heartbeat` is 100)
an update performed at clock value 101 leaves `last_heartbeat` at 100
instead of setting it to the current time, so the claim that each
feedback update sets `last_heartbeat` to the current time is false. -/
theorem feedback_update_keeps_last_heartbeat :
    ¬ (∀ (m : ConnectionManager) (s : SessionRecord) (now : Nat) (fb : String)
        (imgs : List String), m.current_session = some s → s.last_heartbeat ≤ now →
        (update_session_feedback m fb imgs).current_session.map
          SessionRecord.last_heartbeat = some now) := by
  intro hP
  have h1 := hP mgrW recW 101 "looks good" [] rfl (by decide)
  have h2 : (update_session_feedback mgrW "looks good" []).current_session.map
      SessionRecord.last_heartbeat = some 100 := by decide
  rw [h2] at h1
  simp at h1

/-- C9 (amended): while a session is active its `last_heartbeat` is
monotonically non-decreasing across the operations: a heartbeat tick at a
clock value `now` not behind the stored one sets it to `now` (hence does
not decrease it); a feedback update leaves it unchanged (it is not
refreshed there); saving and `stop` leave the current session untouched. -/
theorem last_heartbeat_spec (m : ConnectionManager) (s : SessionRecord) (now : Nat)
    (feedback : String) (images : List String)
    (h : m.current_session = some s) (hclock : s.last_heartbeat ≤ now) :
    (send_heartbeat now m).current_session = some { s with last_heartbeat := now }
    ∧ s.last_heartbeat ≤ now
    ∧ (update_session_feedback m feedback images).current_session.map
        SessionRecord.last_heartbeat = some s.last_heartbeat
    ∧ (save_session_state m).current_session = m.current_session
    ∧ (stop m).current_session = m.current_session := by
  refine ⟨?_, hclock, ?_, ?_, ?_⟩
  · simp [send_heartbeat, h, save_session_state]
  · simp [update_session_feedback, h, save_session_state]
  · rcases hc : m.current_session with _ | s2 <;> simp [save_session_state, hc]
  · rw [stop_eq]
    split_ifs <;> simp [save_session_state, h]

theorem last_heartbeat_spec_witness :
    (send_heartbeat 101 mgrW).current_session = some { recW with last_heartbeat := 101 }
    ∧ recW.last_heartbeat ≤ 101
    ∧ (update_session_feedback mgrW "ok" []).current_session.map
        SessionRecord.last_heartbeat = some recW.last_heartbeat
    ∧ (save_session_state mgrW).current_session = mgrW.current_session
    ∧ (stop mgrW).current_session = mgrW.current_session :=
  last_heartbeat_spec mgrW recW 101 "ok" [] rfl (by decide)

/-! ### C6: uuid machinery -/

theorem uuid4_bits (r : Nat) :
    (uuid4_int r).testBit 62 = false ∧ (uuid4_int r).testBit 63 = true
    ∧ (uuid4_int r).testBit 76 = false ∧ (uuid4_int r).testBit 77 = false
    ∧ (uuid4_int r).testBit 78 = true ∧ (uuid4_int r).testBit 79 = false := by
  refine ⟨?_, ?_, ?_, ?_, ?_, ?_⟩ <;>
    simp only [uuid4_int, Nat.testBit_or, Nat.testBit_and, Nat.testBit_mod_two_pow]
  · cases hr : r.testBit 62 <;> decide
  · cases hr : r.testBit 63 <;> decide
  · cases hr : r.testBit 76 <;> decide
  · cases hr : r.testBit 77 <;> decide
  · cases hr : r.testBit 78 <;> decide
  · cases hr : r.testBit 79 <;> decide

theorem testBit_div16pow (x i j : Nat) :
    (x / 16 ^ i % 16).testBit j = (decide (j < 4) && x.testBit (4 * i + j)) := by
  have h1 : x / 16 ^ i = x >>> (4 * i) := by
    rw [Nat.shiftRight_eq_div_pow, Nat.pow_mul]
  rw [h1, show (16 : Nat) = 2 ^ 4 from rfl, Nat.testBit_mod_two_pow,
    Nat.testBit_shiftRight]

theorem nibble_four {d : Nat} (hd : d < 16) (h0 : d.testBit 0 = false)
    (h1 : d.testBit 1 = false) (h2 : d.testBit 2 = true) (h3 : d.testBit 3 = false) :
    d = 4 := by
  interval_cases d <;> revert h0 h1 h2 h3 <;> decide

theorem nibble_variant {d : Nat} (hd : d < 16) (h2 : d.testBit 2 = false)
    (h3 : d.testBit 3 = true) : d = 8 ∨ d = 9 ∨ d = 10 ∨ d = 11 := by
  interval_cases d <;> revert h2 h3 <;> decide

theorem uuid4_version_nibble (r : Nat) : uuid4_int r / 16 ^ 19 % 16 = 4 := by
  have hd : uuid4_int r / 16 ^ 19 % 16 < 16 := Nat.mod_lt _ (by norm_num)
  refine nibble_four hd ?_ ?_ ?_ ?_ <;> rw [testBit_div16pow]
  · simpa using (uuid4_bits r).2.2.1
  · simpa using (uuid4_bits r).2.2.2.1
  · simpa using (uuid4_bits r).2.2.2.2.1
  · simpa using (uuid4_bits r).2.2.2.2.2

theorem uuid4_variant_nibble (r : Nat) :
    uuid4_int r / 16 ^ 15 % 16 = 8 ∨ uuid4_int r / 16 ^ 15 % 16 = 9
    ∨ uuid4_int r / 16 ^ 15 % 16 = 10 ∨ uuid4_int r / 16 ^ 15 % 16 = 11 := by
  have hd : uuid4_int r / 16 ^ 15 % 16 < 16 := Nat.mod_lt _ (by norm_num)
  refine nibble_variant hd ?_ ?_ <;> rw [testBit_div16pow]
  · simpa using (uuid4_bits r).1
  · simpa using (uuid4_bits r).2.1

theorem hexDigits_succ (n w : Nat) :
    hexDigits n (w + 1) = hexDigits (n / 16) w ++ [hexChar (n % 16)] := rfl

theorem hexDigits_length (n w : Nat) : (hexDigits n w).length = w := by
  induction w generalizing n with
  | zero => rfl
  | succ w ih => simp [hexDigits_succ, ih]

theorem isHexChar_hexChar {d : Nat} (h : d < 16) : isHexChar (hexChar d) = true := by
  interval_cases d <;> decide

theorem hexDigits_all_hex (n w : Nat) : (hexDigits n w).all isHexChar = true := by
  induction w generalizing n with
  | zero => rfl
  | succ w ih =>
      rw [hexDigits_succ, List.all_append]
      simp [ih, isHexChar_hexChar (Nat.mod_lt n (by norm_num))]

theorem hexDigits_add (a b n : Nat) :
    hexDigits n (a + b) = hexDigits (n / 16 ^ b) a ++ hexDigits n b := by
  induction b generalizing n with
  | zero => simp [hexDigits]
  | succ b ih =>
      rw [Nat.add_succ, hexDigits_succ, ih, List.append_assoc, Nat.div_div_eq_div_mul,
        show (16 : Nat) * 16 ^ b = 16 ^ (b + 1) by rw [Nat.pow_succ, Nat.mul_comm],
        ← hexDigits_succ]

theorem drop_succ_of_drop {α : Type} {l : List α} {n : Nat} {a : α} {t : List α}
    (h : l.drop n = a :: t) : l.drop (n + 1) = t := by
  have h2 := congrArg (List.drop 1) h
  rw [List.drop_drop] at h2
  simpa using h2

theorem drop_chunk {α : Type} {l : List α} {n : Nat} (m : Nat) {g t : List α}
    (h : l.drop n = g ++ t) (hg : g.length = m) : l.drop (n + m) = t := by
  have h2 := congrArg (List.drop m) h
  rw [List.drop_drop] at h2
  rw [h2, List.drop_left' hg]

theorem uuid4_str_data (r : Nat) :
    (uuid4_str r).data =
      hexDigits (uuid4_int r / 16 ^ 24) 8
      ++ '-' :: (hexDigits (uuid4_int r / 16 ^ 20) 4
      ++ '-' :: (hexDigits (uuid4_int r / 16 ^ 16) 4
      ++ '-' :: (hexDigits (uuid4_int r / 16 ^ 12) 4
      ++ '-' :: hexDigits (uuid4_int r) 12))) := by
  have e1 : (hexDigits (uuid4_int r) 32).take 8 = hexDigits (uuid4_int r / 16 ^ 24) 8 := by
    rw [show hexDigits (uuid4_int r) 32
          = hexDigits (uuid4_int r / 16 ^ 24) 8 ++ hexDigits (uuid4_int r) 24
        from hexDigits_add 8 24 _,
      List.take_left' (hexDigits_length _ _)]
  have e2 : ((hexDigits (uuid4_int r) 32).drop 8).take 4
      = hexDigits (uuid4_int r / 16 ^ 20) 4 := by
    rw [show hexDigits (uuid4_int r) 32
          = hexDigits (uuid4_int r / 16 ^ 24) 8 ++ hexDigits (uuid4_int r) 24
        from hexDigits_add 8 24 _,
      List.drop_left' (hexDigits_length _ _),
      show hexDigits (uuid4_int r) 24
          = hexDigits (uuid4_int r / 16 ^ 20) 4 ++ hexDigits (uuid4_int r) 20
        from hexDigits_add 4 20 _,
      List.take_left' (hexDigits_length _ _)]
  have e3 : ((hexDigits (uuid4_int r) 32).drop 12).take 4
      = hexDigits (uuid4_int r / 16 ^ 16) 4 := by
    rw [show hexDigits (uuid4_int r) 32
          = hexDigits (uuid4_int r / 16 ^ 20) 12 ++ hexDigits (uuid4_int r) 20
        from hexDigits_add 12 20 _,
      List.drop_left' (hexDigits_length _ _),
      show hexDigits (uuid4_int r) 20
          = hexDigits (uuid4_int r / 16 ^ 16) 4 ++ hexDigits (uuid4_int r) 16
        from hexDigits_add 4 16 _,
      List.take_left' (hexDigits_length _ _)]
  have e4 : ((hexDigits (uuid4_int r) 32).drop 16).take 4
      = hexDigits (uuid4_int r / 16 ^ 12) 4 := by
    rw [show hexDigits (uuid4_int r) 32
          = hexDigits (uuid4_int r / 16 ^ 16) 16 ++ hexDigits (uuid4_int r) 16
        from hexDigits_add 16 16 _,
      List.drop_left' (hexDigits_length _ _),
      show hexDigits (uuid4_int r) 16
          = hexDigits (uuid4_int r / 16 ^ 12) 4 ++ hexDigits (uuid4_int r) 12
        from hexDigits_add 4 12 _,
      List.take_left' (hexDigits_length _ _)]
  have e5 : (hexDigits (uuid4_int r) 32).drop 20 = hexDigits (uuid4_int r) 12 := by
    rw [show hexDigits (uuid4_int r) 32
          = hexDigits (uuid4_int r / 16 ^ 12) 20 ++ hexDigits (uuid4_int r) 12
        from hexDigits_add 20 12 _,
      List.drop_left' (hexDigits_length _ _)]
  simp only [uuid4_str]
  rw [e1, e2, e3, e4, e5]

theorem hexDigits_four_head (y : Nat) :
    hexDigits y 4 = hexChar (y / 16 ^ 3 % 16) :: hexDigits y 3 := by
  rw [show hexDigits y 4 = hexDigits (y / 16 ^ 3) 1 ++ hexDigits y 3
      from hexDigits_add 1 3 _]
  rfl

theorem g3_head (r : Nat) :
    hexDigits (uuid4_int r / 16 ^ 16) 4 = '4' :: hexDigits (uuid4_int r / 16 ^ 16) 3 := by
  have h1 : uuid4_int r / 16 ^ 16 / 16 ^ 3 % 16 = 4 := by
    rw [Nat.div_div_eq_div_mul, ← Nat.pow_add]
    exact uuid4_version_nibble r
  rw [hexDigits_four_head, h1, show hexChar 4 = '4' from by decide]

theorem g4_head (r : Nat) :
    hexDigits (uuid4_int r / 16 ^ 12) 4 =
      hexChar (uuid4_int r / 16 ^ 15 % 16) :: hexDigits (uuid4_int r / 16 ^ 12) 3 := by
  have h1 : uuid4_int r / 16 ^ 12 / 16 ^ 3 = uuid4_int r / 16 ^ 15 := by
    rw [Nat.div_div_eq_div_mul, ← Nat.pow_add]
  rw [hexDigits_four_head, h1]

theorem isUuidV4_uuid4_str (r : Nat) : isUuidV4 (uuid4_str r) = true := by
  have hdata := uuid4_str_data r
  have d8 : (uuid4_str r).data.drop 8 = '-' :: (hexDigits (uuid4_int r / 16 ^ 20) 4
      ++ '-' :: (hexDigits (uuid4_int r / 16 ^ 16) 4
      ++ '-' :: (hexDigits (uuid4_int r / 16 ^ 12) 4
      ++ '-' :: hexDigits (uuid4_int r) 12))) := by
    rw [hdata, List.drop_left' (hexDigits_length _ _)]
  have d9 : (uuid4_str r).data.drop 9 = hexDigits (uuid4_int r / 16 ^ 20) 4
      ++ '-' :: (hexDigits (uuid4_int r / 16 ^ 16) 4
      ++ '-' :: (hexDigits (uuid4_int r / 16 ^ 12) 4
      ++ '-' :: hexDigits (uuid4_int r) 12)) := drop_succ_of_drop d8
  have d13 : (uuid4_str r).data.drop 13 = '-' :: (hexDigits (uuid4_int r / 16 ^ 16) 4
      ++ '-' :: (hexDigits (uuid4_int r / 16 ^ 12) 4
      ++ '-' :: hexDigits (uuid4_int r) 12)) :=
    drop_chunk 4 d9 (hexDigits_length _ _)
  have d14 : (uuid4_str r).data.drop 14 = hexDigits (uuid4_int r / 16 ^ 16) 4
      ++ '-' :: (hexDigits (uuid4_int r / 16 ^ 12) 4
      ++ '-' :: hexDigits (uuid4_int r) 12) := drop_succ_of_drop d13
  have d14h : (uuid4_str r).data.drop 14 = '4' :: (hexDigits (uuid4_int r / 16 ^ 16) 3
      ++ '-' :: (hexDigits (uuid4_int r / 16 ^ 12) 4
      ++ '-' :: hexDigits (uuid4_int r) 12)) := by
    rw [d14, g3_head]
    rfl
  have d15 : (uuid4_str r).data.drop 15 = hexDigits (uuid4_int r / 16 ^ 16) 3
      ++ '-' :: (hexDigits (uuid4_int r / 16 ^ 12) 4
      ++ '-' :: hexDigits (uuid4_int r) 12) := drop_succ_of_drop d14h
  have d18 : (uuid4_str r).data.drop 18 = '-' :: (hexDigits (uuid4_int r / 16 ^ 12) 4
      ++ '-' :: hexDigits (uuid4_int r) 12) :=
    drop_chunk 3 d15 (hexDigits_length _ _)
  have d19 : (uuid4_str r).data.drop 19 = hexDigits (uuid4_int r / 16 ^ 12) 4
      ++ '-' :: hexDigits (uuid4_int r) 12 := drop_succ_of_drop d18
  have d19h : (uuid4_str r).data.drop 19 = hexChar (uuid4_int r / 16 ^ 15 % 16)
      :: (hexDigits (uuid4_int r / 16 ^ 12) 3 ++ '-' :: hexDigits (uuid4_int r) 12) := by
    rw [d19, g4_head]
    rfl
  have d20 : (uuid4_str r).data.drop 20 = hexDigits (uuid4_int r / 16 ^ 12) 3
      ++ '-' :: hexDigits (uuid4_int r) 12 := drop_succ_of_drop d19h
  have d23 : (uuid4_str r).data.drop 23 = '-' :: hexDigits (uuid4_int r) 12 :=
    drop_chunk 3 d20 (hexDigits_length _ _)
  have d24 : (uuid4_str r).data.drop 24 = hexDigits (uuid4_int r) 12 :=
    drop_succ_of_drop d23
  have hlen36 : (uuid4_str r).data.length = 36 := by
    rw [hdata]
    simp [hexDigits_length]
  have t8 : (uuid4_str r).data.take 8 = hexDigits (uuid4_int r / 16 ^ 24) 8 := by
    rw [hdata, List.take_left' (hexDigits_length _ _)]
  have t9 : ((uuid4_str r).data.drop 9).take 4 = hexDigits (uuid4_int r / 16 ^ 20) 4 := by
    rw [d9, List.take_left' (hexDigits_length _ _)]
  have t15 : ((uuid4_str r).data.drop 15).take 3 = hexDigits (uuid4_int r / 16 ^ 16) 3 := by
    rw [d15, List.take_left' (hexDigits_length _ _)]
  have t20 : ((uuid4_str r).data.drop 20).take 3 = hexDigits (uuid4_int r / 16 ^ 12) 3 := by
    rw [d20, List.take_left' (hexDigits_length _ _)]
  have s8 : ((uuid4_str r).data.drop 8).take 1 = ['-'] := by rw [d8]; rfl
  have s13 : ((uuid4_str r).data.drop 13).take 1 = ['-'] := by rw [d13]; rfl
  have s14 : ((uuid4_str r).data.drop 14).take 1 = ['4'] := by rw [d14h]; rfl
  have s18 : ((uuid4_str r).data.drop 18).take 1 = ['-'] := by rw [d18]; rfl
  have s19 : ((uuid4_str r).data.drop 19).take 1
      = [hexChar (uuid4_int r / 16 ^ 15 % 16)] := by rw [d19h]; rfl
  have s23 : ((uuid4_str r).data.drop 23).take 1 = ['-'] := by rw [d23]; rfl
  simp only [isUuidV4]
  rw [hlen36, t8, s8, t9, s13, s14, t15, s18, s19, t20, s23, d24]
  simp only [hexDigits_all_hex]
  rcases uuid4_variant_nibble r with h | h | h | h <;> rw [h] <;> decide

/-- C6: `create_persistent_session` returns `str(uuid.uuid4())` of the
freshly drawn randomness — a string of version-4 UUID shape — and installs
as current session a record with `status = "active"`,
`created_at = last_heartbeat = now`, null `feedback_result` and empty
`images` and `command_logs`; the record is persisted in the store under
the returned id before the call returns; and neither the returned id nor
the new record depends on the prior manager state (the call never blocks
on prior sessions). -/
theorem create_persistent_session_spec (r now : Nat) (project_directory summary : String)
    (m : ConnectionManager) :
    (create_persistent_session r now project_directory summary m).1 = uuid4_str r
    ∧ isUuidV4 (create_persistent_session r now project_directory summary m).1 = true
    ∧ (create_persistent_session r now project_directory summary m).2.current_session =
        some { session_id := uuid4_str r, project_directory := project_directory,
               summary := summary, created_at := now, last_heartbeat := now,
               status := "active", feedback_result := none, images := [],
               command_logs := [] }
    ∧ storeLookup (create_persistent_session r now project_directory summary m).2.store
        (uuid4_str r) =
        some { session_id := uuid4_str r, project_directory := project_directory,
               summary := summary, created_at := now, last_heartbeat := now,
               status := "active", feedback_result := none, images := [],
               command_logs := [] }
    ∧ (∀ m2 : ConnectionManager,
        (create_persistent_session r now project_directory summary m2).1 =
          (create_persistent_session r now project_directory summary m).1
        ∧ (create_persistent_session r now project_directory summary m2).2.current_session =
          (create_persistent_session r now project_directory summary m).2.current_session) := by
  refine ⟨rfl, isUuidV4_uuid4_str r, rfl, ?_, fun m2 => ⟨rfl, rfl⟩⟩
  exact storeLookup_storeSave_self m.store _
